import Mathlib

/-!
Verification of the multi-engine language-detection aggregator in
`src/main.py` of marketconnect/polyglot-detect-mcp.

The three underlying engines (fasttext, gcld3, langdetect) are externally
supplied classifiers; the code treats them as opaque calls that either
return a value or raise.  They are modelled here as fields of an
`Engines` record returning `Except EngineError _`: an `Except.error`
value models the underlying call raising a Python exception.  Python
floats are modelled as exact rationals (`ℚ`); Python float literals
`0.1`, `0.5`, `0.0` become the exact rationals `mkRat 1 10`, `mkRat 1 2`,
`0`.  Strings are Lean `String`s (Python `str`).
-/

namespace PolyglotDetect

/-- A Python exception raised by an underlying engine call. -/
inductive EngineError where
  | exn : String → EngineError

/-- The result object returned by `gcld3.NNetLanguageIdentifier.FindLanguage`:
fields `language`, `probability`, `is_reliable` (src/main.py lines 64-69). -/
structure GCLD3Result where
  language : String
  probability : ℚ
  is_reliable : Bool

/-- The three loaded engine instances (src/main.py lines 12-15), modelled as
opaque capabilities.
* `fasttextPredict` models `_model.predict(text, k=3)` with labels and
  probabilities zipped into one list of pairs (the two returned arrays have
  equal length by the engine's contract).
* `gcld3FindLanguage` models `_LANG_IDENTIFIER.FindLanguage(text)`, which may
  return `None`.
* `langdetectDetect` models `langdetect_detect(text)` as a function of the
  process-wide `DetectorFactory.seed` and the text; an `Except.error` is the
  `LangDetectException` path.  -/
structure Engines where
  fasttextPredict : String → Except EngineError (List (String × ℚ))
  gcld3FindLanguage : String → Except EngineError (Option GCLD3Result)
  langdetectDetect : ℕ → String → Except EngineError String

/-- `DetectorFactory.seed = 0` (src/main.py line 12): the fixed pseudo-random
seed configured once at process start. -/
def DetectorFactory.seed : ℕ := 0

/-- Character-level model of the Python expression
`label.replace('__label__', '')` (src/main.py lines 45 and 50): every
non-overlapping occurrence of `__label__`, scanned left to right, is removed. -/
def stripLabelChars : List Char → List Char
  | '_' :: '_' :: 'l' :: 'a' :: 'b' :: 'e' :: 'l' :: '_' :: '_' :: rest => stripLabelChars rest
  | c :: rest => c :: stripLabelChars rest
  | [] => []

/-- `s.replace('__label__', '')` on a Python `str`. -/
def stripLabel (s : String) : String := ⟨stripLabelChars s.data⟩

/-- Model of the Python format specifier `:.3f` on our exact-rational model of
the engines' float confidences: round to the nearest thousandth (halves away
from zero on our rationals) and print with exactly three digits after the
decimal point. -/
def format3 (q : ℚ) : String :=
  let n : ℤ := Int.fdiv (2000 * q.num + (q.den : ℤ)) (2 * (q.den : ℤ))
  let m : ℕ := n.natAbs
  (if n < 0 then "-" else "") ++ toString (m / 1000) ++ "." ++
    (if m % 1000 < 10 then "00" else if m % 1000 < 100 then "0" else "") ++ toString (m % 1000)

/-- `MIN_CONFIDENCE = 0.1` (src/main.py line 41), the exact rational value of
the threshold. -/
def MIN_CONFIDENCE : ℚ := mkRat 1 10

/-- `detect_language_langdetect` (src/main.py lines 17-30): on success the
detected language with the fixed placeholder confidence `0.5`; on any
exception the fallback `("und", 0.0)`. -/
def detect_language_langdetect (e : Engines) (text : String) : String × ℚ :=
  match e.langdetectDetect DetectorFactory.seed text with
  | .ok lang => (lang, mkRat 1 2)
  | .error _ => ("und", 0)

/-- `detect_language_fasttext` (src/main.py lines 32-53).  The `.ok []` branch
is the Python path where `predict` succeeds with no predictions and
`probs[0]` raises `IndexError`, caught by the same `except` clause, which
returns `("und", 0.0, [])`. -/
def detect_language_fasttext (e : Engines) (text : String) :
    String × ℚ × List (String × ℚ) :=
  match e.fasttextPredict text with
  | .error _ => ("und", 0, [])
  | .ok [] => ("und", 0, [])
  | .ok ((l0, p0) :: rest) =>
      let alternatives := ((l0, p0) :: rest).map fun lp => (stripLabel lp.1, lp.2)
      if MIN_CONFIDENCE ≤ p0 then (stripLabel l0, p0, alternatives)
      else ("und", 0, alternatives)

/-- `detect_language_gcld3` (src/main.py lines 55-69).  Note: the Python
function has no `try`/`except`, so an exception raised by `FindLanguage`
propagates; only the `result is None` case is handled.  The returned
`Except` makes that propagation explicit. -/
def detect_language_gcld3 (e : Engines) (text : String) :
    Except EngineError (String × ℚ × Bool) :=
  match e.gcld3FindLanguage text with
  | .error err => .error err
  | .ok none => .ok ("und", 0, false)
  | .ok (some result) => .ok (result.language, result.probability, result.is_reliable)

/-- Concatenation of a list of string segments, used to transcribe the
f-string of src/main.py lines 92-107 segment by segment. -/
def strCat (parts : List String) : String := parts.foldr (fun a b => a ++ b) ""

/-- The list-comprehension join of src/main.py line 97:
`chr(10).join([f"  - {lang}: {conf:.3f}" for lang, conf in ft_alternatives])`. -/
def joinAlts (alts : List (String × ℚ)) : String :=
  String.intercalate "\n" (alts.map fun lc => "  - " ++ lc.1 ++ ": " ++ format3 lc.2)

/-- The Reporter: the f-string of src/main.py lines 92-107, transcribed one
segment per interpolation boundary. -/
def renderReport (ft_lang : String) (ft_conf : ℚ) (ft_alternatives : List (String × ℚ))
    (gcld_lang : String) (gcld_conf : ℚ) (is_reliable : Bool)
    (ld_lang : String) (ld_conf : ℚ) : String :=
  strCat
    [ "# Language Detection Results\n", "\n",
      "## FastText\n",
      "- **Main prediction**: ", ft_lang, " (confidence: ", format3 ft_conf, ")\n",
      "- **Alternative predictions**:\n",
      joinAlts ft_alternatives, "\n", "\n",
      "## GCLD3\n",
      "- **Language**: ", gcld_lang, "\n",
      "- **Confidence**: ", format3 gcld_conf, "\n",
      "- **Is reliable**: ", if is_reliable then "True" else "False", "\n", "\n",
      "## Langdetect\n",
      "- **Language**: ", ld_lang, "\n",
      "- **Confidence**: ", format3 ld_conf, "\n" ]

/-- The aggregator tool `detect_language` (src/main.py lines 71-108): calls the
three adapters in source order and renders the report.  Because
`detect_language_gcld3` can propagate an engine exception, the aggregator's
result is itself an `Except`. -/
def detect_language (e : Engines) (text : String) : Except EngineError String :=
  let ft := detect_language_fasttext e text
  match detect_language_gcld3 e text with
  | .error err => .error err
  | .ok g =>
      let ld := detect_language_langdetect e text
      .ok (renderReport ft.1 ft.2.1 ft.2.2 g.1 g.2.1 g.2.2 ld.1 ld.2)

/-- Modelled from the spec (section 6), for refinement comparison: the FastText
section of the literal report template. -/
def specSectionFastText (lang : String) (conf : ℚ) (alts : List (String × ℚ)) : String :=
  strCat ["## FastText\n", "- **Main prediction**: ", lang, " (confidence: ", format3 conf,
    ")\n", "- **Alternative predictions**:\n", joinAlts alts]

/-- Modelled from the spec (section 6), for refinement comparison: the GCLD3
section of the literal report template. -/
def specSectionGCLD3 (lang : String) (conf : ℚ) (rel : Bool) : String :=
  strCat ["## GCLD3\n", "- **Language**: ", lang, "\n", "- **Confidence**: ", format3 conf,
    "\n", "- **Is reliable**: ", if rel then "True" else "False"]

/-- Modelled from the spec (section 6), for refinement comparison: the
Langdetect section of the literal report template. -/
def specSectionLangdetect (lang : String) (conf : ℚ) : String :=
  strCat ["## Langdetect\n", "- **Language**: ", lang, "\n", "- **Confidence**: ", format3 conf]

/-- Modelled from the spec (sections 4.3 and 6), for refinement comparison: the
full report, a title followed by the three engine sections in the fixed order
subword n-gram, compact neural, statistical n-gram, separated by blank lines. -/
def specReport (ft_lang : String) (ft_conf : ℚ) (ft_alternatives : List (String × ℚ))
    (gcld_lang : String) (gcld_conf : ℚ) (is_reliable : Bool)
    (ld_lang : String) (ld_conf : ℚ) : String :=
  strCat ["# Language Detection Results\n", "\n",
    specSectionFastText ft_lang ft_conf ft_alternatives, "\n", "\n",
    specSectionGCLD3 gcld_lang gcld_conf is_reliable, "\n", "\n",
    specSectionLangdetect ld_lang ld_conf, "\n"]

/-- `pat` occurs as a contiguous substring of `s`. -/
def strContains (s pat : String) : Prop := pat.data <:+: s.data

/-- Modelled from the spec (section 8, determinism): two successive calls of the
statistical n-gram adapter on the same text within one process, in which the
fixed `DetectorFactory.seed` is the only random-state input of the engine. -/
def langdetect_call_pair (e : Engines) (t : String) : (String × ℚ) × (String × ℚ) :=
  (detect_language_langdetect e t, detect_language_langdetect e t)

/-- Engine fixture: all three engine calls raise. -/
def allRaisingEngines : Engines where
  fasttextPredict := fun _ => .error (.exn "fasttext raised")
  gcld3FindLanguage := fun _ => .error (.exn "gcld3 raised")
  langdetectDetect := fun _ _ => .error (.exn "langdetect raised")

/-- Engine fixture: all three engines succeed with well-behaved outputs. -/
def okEngines : Engines where
  fasttextPredict := fun _ =>
    .ok [("__label__en", mkRat 9 10), ("__label__fr", mkRat 1 20), ("__label__de", mkRat 1 100)]
  gcld3FindLanguage := fun _ =>
    .ok (some { language := "en", probability := mkRat 19 20, is_reliable := true })
  langdetectDetect := fun _ _ => .ok "en"

/-- Engine fixture: the fasttext engine's top probability is below `0.1`. -/
def lowConfEngines : Engines where
  fasttextPredict := fun _ =>
    .ok [("__label__en", mkRat 1 20), ("__label__fr", mkRat 1 100), ("__label__de", mkRat 1 200)]
  gcld3FindLanguage := fun _ =>
    .ok (some { language := "en", probability := mkRat 19 20, is_reliable := true })
  langdetectDetect := fun _ _ => .ok "en"

/-- Engine fixture: behaviour of the real engines on the empty string — the
fasttext model yields no predictions and gcld3 reports undetermined. -/
def emptyInputEngines : Engines where
  fasttextPredict := fun _ => .ok []
  gcld3FindLanguage := fun _ =>
    .ok (some { language := "und", probability := 0, is_reliable := false })
  langdetectDetect := fun _ _ => .error (.exn "no features in text")

/-- Engine fixture: the fasttext and langdetect engines raise while gcld3
reports `None`. -/
def failingEngines : Engines where
  fasttextPredict := fun _ => .error (.exn "fasttext failed")
  gcld3FindLanguage := fun _ => .ok none
  langdetectDetect := fun _ _ => .error (.exn "langdetect failed")

/-- The report produced when all adapter results are fallbacks. -/
def failReport : String := renderReport "und" 0 [] "und" 0 false "und" 0



theorem charsHere (pat rest : List Char) : pat <:+: pat ++ rest :=
  ⟨[], rest, by simp⟩

theorem charsAppendL (a : List Char) {s pat : List Char} (h : pat <:+: s) :
    pat <:+: a ++ s := by
  obtain ⟨u, v, huv⟩ := h
  exact ⟨a ++ u, v, by simp [← huv]⟩

theorem renderReport_contains_labels (ftL : String) (ftC : ℚ) (ftA : List (String × ℚ))
    (gL : String) (gC : ℚ) (rel : Bool) (ldL : String) (ldC : ℚ) :
    strContains (renderReport ftL ftC ftA gL gC rel ldL ldC) "## FastText\n" ∧
    strContains (renderReport ftL ftC ftA gL gC rel ldL ldC) "- **Main prediction**: " ∧
    strContains (renderReport ftL ftC ftA gL gC rel ldL ldC) "- **Alternative predictions**:\n" ∧
    strContains (renderReport ftL ftC ftA gL gC rel ldL ldC) "## GCLD3\n" ∧
    strContains (renderReport ftL ftC ftA gL gC rel ldL ldC) "- **Language**: " ∧
    strContains (renderReport ftL ftC ftA gL gC rel ldL ldC) "- **Confidence**: " ∧
    strContains (renderReport ftL ftC ftA gL gC rel ldL ldC) "- **Is reliable**: " ∧
    strContains (renderReport ftL ftC ftA gL gC rel ldL ldC) "## Langdetect\n" := by
  refine ⟨?_, ?_, ?_, ?_, ?_, ?_, ?_, ?_⟩ <;>
    · unfold strContains renderReport strCat
      simp only [List.foldr_cons, List.foldr_nil, String.data_append]
      repeat first
        | exact charsHere _ _
        | apply charsAppendL

theorem renderReport_contains_values (ftL : String) (ftC : ℚ) (ftA : List (String × ℚ))
    (gL : String) (gC : ℚ) (rel : Bool) (ldL : String) (ldC : ℚ) :
    strContains (renderReport ftL ftC ftA gL gC rel ldL ldC) ftL ∧
    strContains (renderReport ftL ftC ftA gL gC rel ldL ldC) (format3 ftC) ∧
    strContains (renderReport ftL ftC ftA gL gC rel ldL ldC) gL ∧
    strContains (renderReport ftL ftC ftA gL gC rel ldL ldC) (format3 gC) ∧
    strContains (renderReport ftL ftC ftA gL gC rel ldL ldC) ldL ∧
    strContains (renderReport ftL ftC ftA gL gC rel ldL ldC) (format3 ldC) := by
  refine ⟨?_, ?_, ?_, ?_, ?_, ?_⟩ <;>
    · unfold strContains renderReport strCat
      simp only [List.foldr_cons, List.foldr_nil, String.data_append]
      repeat first
        | exact charsHere _ _
        | apply charsAppendL

theorem renderReport_empty_alts (ftL : String) (ftC : ℚ) (gL : String) (gC : ℚ)
    (rel : Bool) (ldL : String) (ldC : ℚ) :
    ∃ A B, renderReport ftL ftC [] gL gC rel ldL ldC =
      A ++ ("- **Alternative predictions**:\n" ++ ("\n" ++ ("\n" ++ ("## GCLD3\n" ++ B)))) := by
  refine ⟨strCat ["# Language Detection Results\n", "\n", "## FastText\n",
      "- **Main prediction**: ", ftL, " (confidence: ", format3 ftC, ")\n"],
    strCat ["- **Language**: ", gL, "\n", "- **Confidence**: ", format3 gC, "\n",
      "- **Is reliable**: ", if rel then "True" else "False", "\n", "\n",
      "## Langdetect\n", "- **Language**: ", ldL, "\n", "- **Confidence**: ", format3 ldC, "\n"],
    ?_⟩
  have hjoin : joinAlts [] = "" := rfl
  have hnil : ("" : String).data = [] := rfl
  apply String.ext
  simp only [renderReport, strCat, hjoin, List.foldr_cons, List.foldr_nil,
    String.data_append, hnil, List.append_nil, List.nil_append, List.append_assoc]

/-- C3: for every triple of detection results, the report rendered by
`detect_language` consists of exactly three sections in the fixed order
FastText (subword n-gram), GCLD3 (compact neural), Langdetect (statistical
n-gram), each showing the primary language code and its confidence formatted
to exactly three decimal digits, following the literal markdown template of
spec section 6: the source renderer coincides with the spec-modelled template. -/
theorem report_follows_spec_template (ft_lang : String) (ft_conf : ℚ)
    (ft_alternatives : List (String × ℚ)) (gcld_lang : String) (gcld_conf : ℚ)
    (is_reliable : Bool) (ld_lang : String) (ld_conf : ℚ) :
    renderReport ft_lang ft_conf ft_alternatives gcld_lang gcld_conf is_reliable
        ld_lang ld_conf =
      specReport ft_lang ft_conf ft_alternatives gcld_lang gcld_conf is_reliable
        ld_lang ld_conf := by
  have hnil : ("" : String).data = [] := rfl
  apply String.ext
  simp only [renderReport, specReport, specSectionFastText, specSectionGCLD3,
    specSectionLangdetect, strCat, List.foldr_cons, List.foldr_nil,
    String.data_append, hnil, List.append_nil, List.nil_append, List.append_assoc]

/-- C1: the claim says every adapter converts an exception of its underlying
engine call into its defined fallback result, so that `detect_language` always
produces results for all three engines and never itself fails — in particular
for the gcld3 adapter.  The code violates this: `detect_language_gcld3` has no
`try`/`except` (src/main.py lines 55-69), so with engines whose underlying
calls all raise, the fasttext and langdetect adapters do return their
fallbacks, but the gcld3 adapter propagates the exception and the aggregator
itself fails instead of producing a report. -/
theorem gcld3_error_propagates :
    detect_language_fasttext allRaisingEngines "Hello, how are you?" = ("und", 0, []) ∧
    detect_language_langdetect allRaisingEngines "Hello, how are you?" = ("und", 0) ∧
    detect_language_gcld3 allRaisingEngines "Hello, how are you?" =
      .error (.exn "gcld3 raised") ∧
    detect_language allRaisingEngines "Hello, how are you?" =
      .error (.exn "gcld3 raised") :=
  ⟨rfl, rfl, rfl, rfl⟩

/-- C2: the fasttext adapter applies the `0.10` minimum-confidence policy: when
the engine call succeeds with a non-empty top-k list, a top probability below
`0.10` yields `("und", 0.0)` with the prefix-stripped raw pairs still in the
alternatives, and a top probability of at least `0.10` yields the top pair
(prefix stripped) as language and confidence. -/
theorem fasttext_min_confidence (e : Engines) (t : String) (l0 : String) (p0 : ℚ)
    (rest : List (String × ℚ))
    (h : e.fasttextPredict t = .ok ((l0, p0) :: rest)) :
    (p0 < MIN_CONFIDENCE →
      detect_language_fasttext e t =
        ("und", 0, ((l0, p0) :: rest).map fun lp => (stripLabel lp.1, lp.2))) ∧
    (MIN_CONFIDENCE ≤ p0 →
      detect_language_fasttext e t =
        (stripLabel l0, p0, ((l0, p0) :: rest).map fun lp => (stripLabel lp.1, lp.2))) := by
  have hd : detect_language_fasttext e t =
      if MIN_CONFIDENCE ≤ p0
      then (stripLabel l0, p0, ((l0, p0) :: rest).map fun lp => (stripLabel lp.1, lp.2))
      else ("und", 0, ((l0, p0) :: rest).map fun lp => (stripLabel lp.1, lp.2)) := by
    unfold detect_language_fasttext
    rw [h]
  constructor
  · intro hlt
    rw [hd, if_neg (not_le.mpr hlt)]
  · intro hge
    rw [hd, if_pos hge]

/-- C2 witness: with a concrete engine whose top probability is `0.05 < 0.10`,
the adapter returns `"und"` with confidence `0`, the stripped raw top-3 kept
as alternatives. -/
theorem fasttext_min_confidence_witness :
    detect_language_fasttext lowConfEngines "Qq" =
      ("und", 0, [("en", mkRat 1 20), ("fr", mkRat 1 100), ("de", mkRat 1 200)]) :=
  (fasttext_min_confidence lowConfEngines "Qq" "__label__en" (mkRat 1 20)
      [("__label__fr", mkRat 1 100), ("__label__de", mkRat 1 200)] rfl).1 (by decide)

/-- C5: the langdetect adapter returns the fixed placeholder confidence `0.5`
whenever the engine finds a language, returns `("und", 0.0)` on any internal
failure, and its confidence is never any value other than `0.5` or `0.0`. -/
theorem langdetect_confidence_policy (e : Engines) (t : String) :
    (∀ lang, e.langdetectDetect DetectorFactory.seed t = .ok lang →
      detect_language_langdetect e t = (lang, mkRat 1 2)) ∧
    (∀ err, e.langdetectDetect DetectorFactory.seed t = .error err →
      detect_language_langdetect e t = ("und", 0)) ∧
    ((detect_language_langdetect e t).2 = mkRat 1 2 ∨
      (detect_language_langdetect e t).2 = 0) := by
  refine ⟨?_, ?_, ?_⟩
  · intro lang hcall
    unfold detect_language_langdetect
    rw [hcall]
  · intro err hcall
    unfold detect_language_langdetect
    rw [hcall]
  · unfold detect_language_langdetect
    cases e.langdetectDetect DetectorFactory.seed t with
    | ok lang => exact Or.inl rfl
    | error err => exact Or.inr rfl

/-- C5 witness: with a concrete engine that detects `"en"`, the adapter reports
confidence `0.5`. -/
theorem langdetect_confidence_policy_witness :
    detect_language_langdetect okEngines "Bonjour" = ("en", mkRat 1 2) :=
  (langdetect_confidence_policy okEngines "Bonjour").1 "en" rfl

/-- C9: under the fixed pseudo-random seed `DetectorFactory.seed` configured
once at process start, the langdetect adapter is deterministic: two calls with
the same input text return the same language code. -/
theorem langdetect_deterministic (e : Engines) (t : String) :
    (langdetect_call_pair e t).1.1 = (langdetect_call_pair e t).2.1 := rfl

/-- C4: for every input text, the confidence returned by each of the three
adapters lies in `[0, 1]`.  The fasttext and gcld3 adapters pass the engine's
probability through unchanged, so the statement is conditioned on the engines
reporting probabilities in `[0, 1]`, which is the spec's contract for these
opaque probabilistic classifiers; the langdetect adapter is unconditional. -/
theorem confidence_in_unit (e : Engines) (t : String)
    (hft : ∀ preds, e.fasttextPredict t = .ok preds →
      ∀ lp ∈ preds, 0 ≤ lp.2 ∧ lp.2 ≤ 1)
    (hg : ∀ r, e.gcld3FindLanguage t = .ok (some r) →
      0 ≤ r.probability ∧ r.probability ≤ 1) :
    (0 ≤ (detect_language_langdetect e t).2 ∧ (detect_language_langdetect e t).2 ≤ 1) ∧
    (0 ≤ (detect_language_fasttext e t).2.1 ∧ (detect_language_fasttext e t).2.1 ≤ 1) ∧
    (∀ g, detect_language_gcld3 e t = .ok g → 0 ≤ g.2.1 ∧ g.2.1 ≤ 1) := by
  refine ⟨?_, ?_, ?_⟩
  · unfold detect_language_langdetect
    cases e.langdetectDetect DetectorFactory.seed t with
    | ok lang =>
        constructor <;> norm_num [Rat.mkRat_eq_div]
    | error err =>
        constructor <;> norm_num
  · cases hp : e.fasttextPredict t with
    | error err =>
        have hd : detect_language_fasttext e t = ("und", 0, []) := by
          unfold detect_language_fasttext
          rw [hp]
        rw [hd]
        constructor <;> norm_num
    | ok preds =>
        cases preds with
        | nil =>
            have hd : detect_language_fasttext e t = ("und", 0, []) := by
              unfold detect_language_fasttext
              rw [hp]
            rw [hd]
            constructor <;> norm_num
        | cons hd0 rest =>
            obtain ⟨l0, p0⟩ := hd0
            have hmem := hft _ hp (l0, p0) (List.mem_cons_self _ _)
            have hd : detect_language_fasttext e t =
                if MIN_CONFIDENCE ≤ p0
                then (stripLabel l0, p0, ((l0, p0) :: rest).map fun lp => (stripLabel lp.1, lp.2))
                else ("und", 0, ((l0, p0) :: rest).map fun lp => (stripLabel lp.1, lp.2)) := by
              unfold detect_language_fasttext
              rw [hp]
            rw [hd]
            split_ifs with hge
            · simpa using hmem
            · constructor <;> norm_num
  · intro g hgok
    cases hcall : e.gcld3FindLanguage t with
    | error err =>
        unfold detect_language_gcld3 at hgok
        rw [hcall] at hgok
        cases hgok
    | ok o =>
        cases o with
        | none =>
            unfold detect_language_gcld3 at hgok
            rw [hcall] at hgok
            injection hgok with hsome
            subst hsome
            constructor <;> norm_num
        | some r =>
            unfold detect_language_gcld3 at hgok
            rw [hcall] at hgok
            injection hgok with hsome
            subst hsome
            simpa using hg r hcall

/-- C4 witness: with concrete well-behaved engines, the fasttext adapter's
returned confidence lies in `[0, 1]`. -/
theorem confidence_in_unit_witness :
    0 ≤ (detect_language_fasttext okEngines "x").2.1 ∧
      (detect_language_fasttext okEngines "x").2.1 ≤ 1 :=
  (confidence_in_unit okEngines "x"
    (fun preds hp => by
      injection hp with h
      subst h
      intro lp hm
      fin_cases hm <;> exact ⟨by norm_num [Rat.mkRat_eq_div], by norm_num [Rat.mkRat_eq_div]⟩)
    (fun r hr => by
      injection hr with h
      injection h with h2
      subst h2
      exact ⟨by norm_num [Rat.mkRat_eq_div], by norm_num [Rat.mkRat_eq_div]⟩)).2.1

/-- C6: the empty string is a valid input — the adapters are total functions
that never validate or reject their argument — and on empty-string input both
the gcld3 adapter and the fasttext adapter return language `"und"` with
confidence `0.0`.  The hypotheses record the real engines' behaviour on the
empty string as the spec states it: the fasttext model yields no predictions
(or raises), and gcld3 either cannot produce a result or reports the
undetermined language with probability `0`. -/
theorem empty_string_und (e : Engines)
    (hft : (∃ err, e.fasttextPredict "" = .error err) ∨ e.fasttextPredict "" = .ok [])
    (hg : e.gcld3FindLanguage "" = .ok none ∨
      ∃ r, e.gcld3FindLanguage "" = .ok (some r) ∧ r.language = "und" ∧ r.probability = 0) :
    detect_language_fasttext e "" = ("und", 0, []) ∧
    ∃ rel, detect_language_gcld3 e "" = .ok ("und", 0, rel) := by
  constructor
  · rcases hft with ⟨err, he⟩ | he <;>
      · unfold detect_language_fasttext
        rw [he]
  · rcases hg with he | ⟨r, he, hlang, hprob⟩
    · refine ⟨false, ?_⟩
      unfold detect_language_gcld3
      rw [he]
    · refine ⟨r.is_reliable, ?_⟩
      unfold detect_language_gcld3
      rw [he]
      show Except.ok (r.language, r.probability, r.is_reliable) =
        Except.ok ("und", 0, r.is_reliable)
      rw [hlang, hprob]

/-- C6 witness: with engines behaving as the real ones do on the empty string,
both adapters report `("und", 0.0)`. -/
theorem empty_string_und_witness :
    detect_language_fasttext emptyInputEngines "" = ("und", 0, []) ∧
    ∃ rel, detect_language_gcld3 emptyInputEngines "" = .ok ("und", 0, rel) :=
  empty_string_und emptyInputEngines (Or.inr rfl)
    (Or.inr ⟨{ language := "und", probability := 0, is_reliable := false }, rfl, rfl, rfl⟩)

/-- C8: whenever an adapter's alternatives sequence is non-empty it is sorted
by non-increasing confidence (the fasttext adapter merely prefix-strips the
engine's ranked top-k list, whose descending order is the engine's contract;
the other two adapters expose no alternatives), and when the fasttext top
probability meets the `0.10` threshold the primary (language, confidence) pair
is exactly the first element of the alternatives. -/
theorem alternatives_sorted (e : Engines) (t : String)
    (hs : ∀ preds, e.fasttextPredict t = .ok preds →
      List.Chain' (fun a b : String × ℚ => b.2 ≤ a.2) preds) :
    List.Chain' (fun a b : String × ℚ => b.2 ≤ a.2) (detect_language_fasttext e t).2.2 ∧
    (∀ l0 p0 rest, e.fasttextPredict t = .ok ((l0, p0) :: rest) → MIN_CONFIDENCE ≤ p0 →
      ∃ tail, (detect_language_fasttext e t).2.2 =
        ((detect_language_fasttext e t).1, (detect_language_fasttext e t).2.1) :: tail) := by
  constructor
  · cases hp : e.fasttextPredict t with
    | error err =>
        have hd : detect_language_fasttext e t = ("und", 0, []) := by
          unfold detect_language_fasttext
          rw [hp]
        rw [hd]
        exact List.chain'_nil
    | ok preds =>
        cases preds with
        | nil =>
            have hd : detect_language_fasttext e t = ("und", 0, []) := by
              unfold detect_language_fasttext
              rw [hp]
            rw [hd]
            exact List.chain'_nil
        | cons hd0 rest =>
            obtain ⟨l0, p0⟩ := hd0
            have hmap : List.Chain' (fun a b : String × ℚ => b.2 ≤ a.2)
                (((l0, p0) :: rest).map fun lp => (stripLabel lp.1, lp.2)) := by
              rw [List.chain'_map]
              exact hs _ hp
            have hd : detect_language_fasttext e t =
                if MIN_CONFIDENCE ≤ p0
                then (stripLabel l0, p0, ((l0, p0) :: rest).map fun lp => (stripLabel lp.1, lp.2))
                else ("und", 0, ((l0, p0) :: rest).map fun lp => (stripLabel lp.1, lp.2)) := by
              unfold detect_language_fasttext
              rw [hp]
            rw [hd]
            split_ifs with hge
            · exact hmap
            · exact hmap
  · intro l0 p0 rest hp hge
    have hd0 : detect_language_fasttext e t =
        if MIN_CONFIDENCE ≤ p0
        then (stripLabel l0, p0, ((l0, p0) :: rest).map fun lp => (stripLabel lp.1, lp.2))
        else ("und", 0, ((l0, p0) :: rest).map fun lp => (stripLabel lp.1, lp.2)) := by
      unfold detect_language_fasttext
      rw [hp]
    have hd : detect_language_fasttext e t =
        (stripLabel l0, p0, ((l0, p0) :: rest).map fun lp => (stripLabel lp.1, lp.2)) := by
      rw [hd0, if_pos hge]
    rw [hd]
    exact ⟨_, rfl⟩

/-- C8 witness: with a concrete engine returning a descending top-3 list, the
adapter's alternatives are sorted by non-increasing confidence. -/
theorem alternatives_sorted_witness :
    List.Chain' (fun a b : String × ℚ => b.2 ≤ a.2)
      (detect_language_fasttext okEngines "x").2.2 :=
  (alternatives_sorted okEngines "x"
    (fun preds hp => by
      injection hp with h
      subst h
      simp only [List.chain'_cons, List.chain'_singleton, and_true]
      constructor <;> decide)).1

/-- C7: rendering is a pure function of the three detection results — the same
stored values always render to the byte-identical string — and no language or
confidence value is altered, rounded beyond the three-digit display format, or
filtered: every language code appears verbatim in the output, and every
confidence appears exactly as its three-digit rendering. -/
theorem reporter_pure (ft_lang : String) (ft_conf : ℚ)
    (ft_alternatives : List (String × ℚ)) (gcld_lang : String) (gcld_conf : ℚ)
    (is_reliable : Bool) (ld_lang : String) (ld_conf : ℚ) :
    renderReport ft_lang ft_conf ft_alternatives gcld_lang gcld_conf is_reliable
        ld_lang ld_conf =
      renderReport ft_lang ft_conf ft_alternatives gcld_lang gcld_conf is_reliable
        ld_lang ld_conf ∧
    strContains (renderReport ft_lang ft_conf ft_alternatives gcld_lang gcld_conf
      is_reliable ld_lang ld_conf) ft_lang ∧
    strContains (renderReport ft_lang ft_conf ft_alternatives gcld_lang gcld_conf
      is_reliable ld_lang ld_conf) (format3 ft_conf) ∧
    strContains (renderReport ft_lang ft_conf ft_alternatives gcld_lang gcld_conf
      is_reliable ld_lang ld_conf) gcld_lang ∧
    strContains (renderReport ft_lang ft_conf ft_alternatives gcld_lang gcld_conf
      is_reliable ld_lang ld_conf) (format3 gcld_conf) ∧
    strContains (renderReport ft_lang ft_conf ft_alternatives gcld_lang gcld_conf
      is_reliable ld_lang ld_conf) ld_lang ∧
    strContains (renderReport ft_lang ft_conf ft_alternatives gcld_lang gcld_conf
      is_reliable ld_lang ld_conf) (format3 ld_conf) :=
  ⟨rfl, renderReport_contains_values ft_lang ft_conf ft_alternatives gcld_lang
    gcld_conf is_reliable ld_lang ld_conf⟩

/-- C10: whenever the aggregator returns a report, all three section headers
and every field label appear in it; and when the fasttext adapter returned an
empty alternatives list (its exception fallback), the report still contains
the `**Alternative predictions**:` label followed by zero item lines — the
blank line and the GCLD3 header follow it immediately. -/
theorem report_labels_present (e : Engines) (t : String) (report : String)
    (hok : detect_language e t = .ok report) :
    strContains report "## FastText\n" ∧
    strContains report "- **Main prediction**: " ∧
    strContains report "- **Alternative predictions**:\n" ∧
    strContains report "## GCLD3\n" ∧
    strContains report "- **Language**: " ∧
    strContains report "- **Confidence**: " ∧
    strContains report "- **Is reliable**: " ∧
    strContains report "## Langdetect\n" ∧
    ((detect_language_fasttext e t).2.2 = [] →
      ∃ A B, report =
        A ++ ("- **Alternative predictions**:\n" ++ ("\n" ++ ("\n" ++ ("## GCLD3\n" ++ B))))) := by
  cases hg : detect_language_gcld3 e t with
  | error err =>
      unfold detect_language at hok
      rw [hg] at hok
      cases hok
  | ok g =>
      unfold detect_language at hok
      rw [hg] at hok
      injection hok with hrep
      subst hrep
      obtain ⟨h1, h2, h3, h4, h5, h6, h7, h8⟩ :=
        renderReport_contains_labels (detect_language_fasttext e t).1
          (detect_language_fasttext e t).2.1 (detect_language_fasttext e t).2.2
          g.1 g.2.1 g.2.2 (detect_language_langdetect e t).1
          (detect_language_langdetect e t).2
      refine ⟨h1, h2, h3, h4, h5, h6, h7, h8, ?_⟩
      intro halts
      rw [halts]
      exact renderReport_empty_alts (detect_language_fasttext e t).1
        (detect_language_fasttext e t).2.1 g.1 g.2.1 g.2.2
        (detect_language_langdetect e t).1 (detect_language_langdetect e t).2

/-- C10 witness: with engines whose fasttext call raises (empty alternatives
fallback) and whose gcld3 call reports `None`, the aggregator returns the
all-fallback report, and it contains the FastText section header. -/
theorem report_labels_present_witness :
    strContains failReport "## FastText\n" :=
  (report_labels_present failingEngines "zzz" failReport rfl).1
